import Mathlib

/-!
Verification development for the DevOps agent backend
(`src/backend/src/agent/Agent.ts`, `src/backend/src/agent/AIProvider.ts`,
`src/backend/src/agent/tools/FileSystemTool.ts`, `src/backend/src/types/index.ts`).

The TypeScript code is shallowly embedded: asynchronous effectful functions
become pure Lean functions, with network responses from the model provider
supplied as explicit oracle arguments, thrown exceptions modelled by
`Except` / `Option`, `Date.now()` and `nanoid()` modelled by explicit
parameters, and the JavaScript `Map` modelled by a duplicate-free
association list.
-/

/-- JSON values, modelling the dynamic (`any`) payloads flowing through the
agent (tool-call arguments, tool results).  Numbers are modelled as integers:
no claim depends on floating-point numerals. -/
inductive Json where
  | null : Json
  | bool (b : Bool) : Json
  | num (n : Int) : Json
  | str (s : String) : Json
  | arr (elems : List Json) : Json
  | obj (fields : List (String × Json)) : Json

/-- Escape of a string for JSON output (quote and backslash; control-character
escapes are not needed by any claim). -/
def escapeJson (s : String) : String :=
  s.foldl (fun acc c =>
    if c = '\\' then acc ++ "\\\\"
    else if c = '"' then acc ++ "\\\""
    else acc ++ String.singleton c) ""

mutual

/-- Model of `JSON.stringify` on the embedded `Json` values. -/
def jsonStringify : Json → String
  | Json.null => "null"
  | Json.bool true => "true"
  | Json.bool false => "false"
  | Json.num n => toString n
  | Json.str s => "\"" ++ escapeJson s ++ "\""
  | Json.arr elems => "[" ++ jsonStringifyArr elems ++ "]"
  | Json.obj fields => "\x7b" ++ jsonStringifyObj fields ++ "\x7d"

/-- Comma-separated rendering of a JSON array body. -/
def jsonStringifyArr : List Json → String
  | [] => ""
  | [j] => jsonStringify j
  | j :: rest => jsonStringify j ++ "," ++ jsonStringifyArr rest

/-- Comma-separated rendering of a JSON object body. -/
def jsonStringifyObj : List (String × Json) → String
  | [] => ""
  | [(k, v)] => "\"" ++ escapeJson k ++ "\":" ++ jsonStringify v
  | (k, v) :: rest =>
      "\"" ++ escapeJson k ++ "\":" ++ jsonStringify v ++ "," ++ jsonStringifyObj rest

end

/-- Message roles, from `types/index.ts` (`'user' | 'assistant' | 'system' | 'tool'`). -/
inductive Role where
  | user : Role
  | assistant : Role
  | system : Role
  | tool : Role
deriving DecidableEq

/-- `ToolCall` from `types/index.ts`: a tool-invocation request emitted by the
model.  `arguments` is `Record<string, any>` in the source; it is embedded as
a `Json` value (an object in well-formed calls, but JavaScript never checks). -/
structure ToolCall where
  id : String
  name : String
  arguments : Json

/-- `ToolResult` from `types/index.ts`. -/
structure ToolResult where
  id : String
  name : String
  result : Json
  error : Option String := none

/-- Parameter type tags from `types/index.ts` (`ToolParameter.type`). -/
inductive ParamType where
  | string : ParamType
  | number : ParamType
  | boolean : ParamType
  | object : ParamType
  | array : ParamType

/-- `ToolParameter` from `types/index.ts`. -/
structure ToolParameter where
  name : String
  type : ParamType
  description : String
  required : Bool
  enum : Option (List String) := none

/-- `ToolContext` from `types/index.ts`. -/
structure ToolContext where
  workspaceRoot : Option String := none
  currentFile : Option String := none
  userId : Option String := none
  sessionId : String

/-- `Tool` from `types/index.ts`.  The async `execute` function is embedded as
a pure function whose `Except.error` case models a thrown error / rejected
promise carrying that error's `message`. -/
structure Tool where
  name : String
  description : String
  parameters : List ToolParameter
  execute : Json → ToolContext → Except String Json

/-- `AgentMessage` from `types/index.ts`.  An absent optional field is `none`;
note a present-but-empty `toolCalls` array is `some []`, distinct from `none`,
matching JavaScript truthiness of empty arrays. -/
structure AgentMessage where
  id : String
  role : Role
  content : String
  timestamp : Nat
  toolCalls : Option (List ToolCall) := none
  toolResults : Option (List ToolResult) := none

/-- Provider tags from `types/index.ts` (`AgentConfig.provider`). -/
inductive Provider where
  | openai : Provider
  | anthropic : Provider
  | groq : Provider
  | ollama : Provider

/-- `AgentConfig` from `types/index.ts`.  `temperature` and `maxTokens` are
floating-point / numeric tunables consulted only when building provider
requests; no claim depends on them and they are not modelled. -/
structure AgentConfig where
  provider : Provider
  model : String
  systemPrompt : Option String := none

/-- `ConversationHistory` from `types/index.ts` (the `metadata` bag is unused
by the agent and not modelled). -/
structure ConversationHistory where
  sessionId : String
  userId : Option String := none
  messages : List AgentMessage := []

/-- Lookup in a JavaScript `Map` modelled as an association list
(`Map.prototype.get`). -/
def mapGet {α : Type} (m : List (String × α)) (k : String) : Option α :=
  match m.find? (fun p => p.1 = k) with
  | some p => some p.2
  | none => none

/-- Update in a JavaScript `Map` modelled as an association list
(`Map.prototype.set`): replaces the binding in place if the key is present,
otherwise appends it, preserving insertion order. -/
def mapSet {α : Type} (m : List (String × α)) (k : String) (v : α) :
    List (String × α) :=
  match m with
  | [] => [(k, v)]
  | (k0, v0) :: rest =>
      if k0 = k then (k, v) :: rest else (k0, v0) :: mapSet rest k v

/-- Deletion from a JavaScript `Map` modelled as an association list
(`Map.prototype.delete`). -/
def mapDelete {α : Type} (m : List (String × α)) (k : String) :
    List (String × α) :=
  m.filter (fun p => p.1 ≠ k)

/-- Number of bindings a key has in an association list (1 or 0 for lists that
model a JavaScript `Map`). -/
def countKey {α : Type} (m : List (String × α)) (k : String) : Nat :=
  (m.filter (fun p => p.1 = k)).length

/-- JavaScript `s || d` for strings: the empty string is falsy. -/
def jsOrStr (s d : String) : String :=
  if s = "" then d else s

/-- JavaScript `s || d` where `s` may be `null`/`undefined` or a string. -/
def jsOrOpt (s : Option String) (d : String) : String :=
  match s with
  | some v => jsOrStr v d
  | none => d

/-- The `Agent` class state (`Agent.ts`): registered tools and per-session
conversations, both JavaScript `Map`s.  The `aiProvider` field performs network
calls; its behaviour enters the embedding as an explicit oracle argument of
`processMessage`. -/
structure Agent where
  config : AgentConfig
  tools : List (String × Tool) := []
  conversations : List (String × ConversationHistory) := []

/-- `Agent.registerTool` (`Agent.ts` lines 27-30): `this.tools.set(tool.name, tool)`. -/
def registerTool (agent : Agent) (tool : Tool) : Agent :=
  { agent with tools := mapSet agent.tools tool.name tool }

/-- `Agent.registerTools` (`Agent.ts` lines 32-34):
`tools.forEach((tool) => this.registerTool(tool))`. -/
def registerTools (agent : Agent) (tools : List Tool) : Agent :=
  tools.foldl registerTool agent

/-- `Agent.getOrCreateConversation` (`Agent.ts` lines 153-165).  Returns the
updated agent (the map may gain an entry) together with the history the loop
will extend. -/
def getOrCreateConversation (agent : Agent) (sessionId : String)
    (userId : Option String) : Agent × ConversationHistory :=
  match mapGet agent.conversations sessionId with
  | some h => (agent, h)
  | none =>
      let h : ConversationHistory :=
        { sessionId := sessionId, userId := userId, messages := [] }
      ({ agent with conversations := mapSet agent.conversations sessionId h }, h)

/-- `Agent.getConversation` (`Agent.ts` lines 167-169). -/
def getConversation (agent : Agent) (sessionId : String) :
    Option ConversationHistory :=
  mapGet agent.conversations sessionId

/-- `Agent.clearConversation` (`Agent.ts` lines 171-174):
`this.conversations.delete(sessionId)`. -/
def clearConversation (agent : Agent) (sessionId : String) : Agent :=
  { agent with conversations := mapDelete agent.conversations sessionId }

/-- `Agent.clearAllConversations` (`Agent.ts` lines 176-179). -/
def clearAllConversations (agent : Agent) : Agent :=
  { agent with conversations := [] }

/-- `Agent.executeTool` (`Agent.ts` lines 111-151): registry lookup, the
not-found error result, and conversion of a thrown/rejected execution into a
`ToolResult` with the error's message.  The `statusCallback` side channel is
informational only and not modelled. -/
def executeTool (tools : List (String × Tool)) (toolCall : ToolCall)
    (context : ToolContext) : ToolResult :=
  match mapGet tools toolCall.name with
  | none =>
      { id := toolCall.id, name := toolCall.name, result := Json.null,
        error := some ("Tool \x27" ++ toolCall.name ++ "\x27 not found") }
  | some tool =>
      match tool.execute toolCall.arguments context with
      | Except.ok result =>
          { id := toolCall.id, name := toolCall.name, result := result,
            error := none }
      | Except.error e =>
          { id := toolCall.id, name := toolCall.name, result := Json.null,
            error := some e }

/-- The per-result tool message built in `Agent.processMessage`
(`Agent.ts` lines 81-92): id is the tool call id, role `'tool'`, content the
string result or `JSON.stringify(toolResult.error || toolResult.result)`
(JavaScript `||`: an empty-string error is falsy). -/
def toolResultMessage (toolResult : ToolResult) (now : Nat) : AgentMessage :=
  { id := toolResult.id
    role := Role.tool
    content :=
      match toolResult.result with
      | Json.str s => s
      | r =>
          match toolResult.error with
          | some e =>
              if e = "" then jsonStringify r else jsonStringify (Json.str e)
          | none => jsonStringify r
    timestamp := now
    toolResults := some [toolResult] }

/-- The user message appended at the top of `Agent.processMessage`
(`Agent.ts` lines 46-52). -/
def mkUserMessage (id : String) (content : String) (now : Nat) : AgentMessage :=
  { id := id, role := Role.user, content := content, timestamp := now }

/-- The synthesized assistant message returned when the iteration ceiling is
reached (`Agent.ts` lines 103-108). -/
def maxIterationsFallback (id : String) (now : Nat) : AgentMessage :=
  { id := id
    role := Role.assistant
    content := "I apologize, but I reached the maximum number of processing steps. Please try rephrasing your request."
    timestamp := now }

/-- `const maxIterations = 20` (`Agent.ts` line 55). -/
def maxIterations : Nat := 20

/-- The Model Adapter as seen by the agent loop: one outcome of
`aiProvider.generateResponse(history.messages, Array.from(this.tools.values()))`
per model round (round index, current history, current tool list), either a
returned message or a thrown error. -/
abbrev Oracle := Nat → List AgentMessage → List Tool → Except String AgentMessage

/-- The `while (iterations < maxIterations)` loop of `Agent.processMessage`
(`Agent.ts` lines 57-100), written as structural recursion on the remaining
iteration budget.  Returns the final message list of the (in-place mutated)
history together with the resolved message or the propagated adapter error. -/
def runLoop (tools : List (String × Tool)) (context : ToolContext)
    (oracle : Oracle) (now : Nat) (fallbackId : String) :
    Nat → Nat → List AgentMessage → List AgentMessage × Except String AgentMessage
  | _round, 0, history => (history, Except.ok (maxIterationsFallback fallbackId now))
  | round, fuel + 1, history =>
      match oracle round history (tools.map Prod.snd) with
      | Except.error e => (history, Except.error e)
      | Except.ok response =>
          let history1 := history ++ [response]
          match response.toolCalls with
          | some toolCalls =>
              if toolCalls.isEmpty then (history1, Except.ok response)
              else
                let toolResults :=
                  toolCalls.map (fun tc => executeTool tools tc context)
                let history2 :=
                  history1 ++ toolResults.map (fun tr => toolResultMessage tr now)
                runLoop tools context oracle now fallbackId (round + 1) fuel history2
          | none => (history1, Except.ok response)

/-- `const sid = sessionId || nanoid()` (`Agent.ts` line 42); `generated`
models the `nanoid()` value. -/
def resolveSid (sessionId : Option String) (generated : String) : String :=
  jsOrOpt sessionId generated

/-- `Agent.processMessage` (`Agent.ts` lines 36-109).  The fresh ids produced
by `nanoid()` and the `Date.now()` clock are explicit parameters; the Model
Adapter is the `oracle`.  The conversation map is updated with the final
message list whether the loop resolves or an adapter error propagates,
matching the in-place mutation of `history.messages` in the source. -/
def processMessage (agent : Agent) (userMessage : String)
    (context : ToolContext) (sessionId : Option String)
    (generatedSid userMsgId fallbackId : String) (oracle : Oracle)
    (now : Nat) : Agent × Except String AgentMessage :=
  let sid := resolveSid sessionId generatedSid
  let agentHistory := getOrCreateConversation agent sid context.userId
  let agent1 := agentHistory.1
  let history := agentHistory.2
  let msgs0 := history.messages ++ [mkUserMessage userMsgId userMessage now]
  let loopResult :=
    runLoop agent1.tools context oracle now fallbackId 0 maxIterations msgs0
  ({ agent1 with
      conversations :=
        mapSet agent1.conversations sid
          { history with messages := loopResult.1 } },
   loopResult.2)

/-- Messages currently stored for a session (empty when the session is absent). -/
def getConversationMessages (agent : Agent) (sessionId : String) :
    List AgentMessage :=
  match mapGet agent.conversations sessionId with
  | some h => h.messages
  | none => []

/-- One serialized tool call in an OpenAI-style chat request
(`AIProvider.ts` lines 277-281 and 441-445): `type: 'function'` with the
arguments JSON-encoded. -/
structure WireToolCall where
  id : String
  functionName : String
  functionArguments : String

/-- One formatted message of an OpenAI-style chat request (also used by the
Groq variant, whose formatting code is identical). -/
inductive WireMessage where
  | system (content : String) : WireMessage
  | toolMsg (content : String) (toolCallId : String) : WireMessage
  | chat (role : Role) (content : String)
      (toolCalls : Option (List WireToolCall)) : WireMessage

/-- Serialization of one `WireToolCall` from a `ToolCall`
(`AIProvider.ts` lines 277-281): `arguments: JSON.stringify(tc.arguments)`. -/
def serializeToolCall (tc : ToolCall) : WireToolCall :=
  { id := tc.id, functionName := tc.name,
    functionArguments := jsonStringify tc.arguments }

/-- Per-message formatting of `generateOpenAIResponse`
(`AIProvider.ts` lines 264-284): tool-role messages become
`{role:'tool', content, tool_call_id: m.id}`; other messages keep their role
and content and, when `m.toolCalls` is present, carry the serialized calls. -/
def openAIFormatMessage (m : AgentMessage) : WireMessage :=
  match m.role with
  | Role.tool => WireMessage.toolMsg m.content m.id
  | r => WireMessage.chat r m.content (m.toolCalls.map (List.map serializeToolCall))

/-- The full formatted message list of `generateOpenAIResponse`
(`AIProvider.ts` lines 262-285): system message first. -/
def openAIFormatMessages (systemMessage : String)
    (messages : List AgentMessage) : List WireMessage :=
  WireMessage.system systemMessage :: messages.map openAIFormatMessage

/-- Per-message formatting of `generateGroqResponse`
(`AIProvider.ts` lines 428-448); the code is identical to the OpenAI
variant's. -/
def groqFormatMessage (m : AgentMessage) : WireMessage :=
  match m.role with
  | Role.tool => WireMessage.toolMsg m.content m.id
  | r => WireMessage.chat r m.content (m.toolCalls.map (List.map serializeToolCall))

/-- The full formatted message list of `generateGroqResponse`
(`AIProvider.ts` lines 426-449). -/
def groqFormatMessages (systemMessage : String)
    (messages : List AgentMessage) : List WireMessage :=
  WireMessage.system systemMessage :: messages.map groqFormatMessage

/-- One formatted message of an Anthropic chat request: the variant only ever
produces a role and plain text content. -/
structure AnthropicWireMessage where
  role : Role
  content : String

/-- Per-message formatting of `generateAnthropicResponse`
(`AIProvider.ts` lines 359-362): every message is flattened to
`{role: m.role === 'assistant' ? 'assistant' : 'user', content: m.content}`;
`toolCalls` and `toolResults` are never consulted. -/
def anthropicFormatMessage (m : AgentMessage) : AnthropicWireMessage :=
  { role := match m.role with
      | Role.assistant => Role.assistant
      | _ => Role.user
    content := m.content }

/-- The full formatted message list of `generateAnthropicResponse`. -/
def anthropicFormatMessages (messages : List AgentMessage) :
    List AnthropicWireMessage :=
  messages.map anthropicFormatMessage

/-- A tool call as it appears in an OpenAI chat-completion response
(`message.tool_calls[i]`): id, function name, and the raw argument JSON
string. -/
structure OpenAIRespToolCall where
  id : String
  name : String
  arguments : String

/-- Argument parsing of `generateOpenAIResponse` (`AIProvider.ts` lines
340-346): `arguments: JSON.parse(tc.function.arguments)` with no try/catch,
so a single parse failure throws and loses the whole response (`none`).
`parseJson` models `JSON.parse` (`none` = throws). -/
def openAIParseToolCalls (parseJson : String → Option Json)
    (toolCalls : List OpenAIRespToolCall) : Option (List ToolCall) :=
  toolCalls.mapM (fun tc =>
    match parseJson tc.arguments with
    | some args => some { id := tc.id, name := tc.name, arguments := args }
    | none => none)

/-- Assembly of the assistant `AgentMessage` from an OpenAI chat-completion
response (`AIProvider.ts` lines 330-348): `content: message.content || ''`,
and tool calls parsed only when `message.tool_calls` is present and
non-empty.  `none` models the exception thrown by a failing `JSON.parse`. -/
def openAIBuildMessage (parseJson : String → Option Json) (respId : String)
    (content : Option String) (toolCalls : Option (List OpenAIRespToolCall))
    (now : Nat) : Option AgentMessage :=
  let base : AgentMessage :=
    { id := respId, role := Role.assistant, content := jsOrOpt content "",
      timestamp := now }
  match toolCalls with
  | some tcs =>
      if tcs.isEmpty then some base
      else
        match openAIParseToolCalls parseJson tcs with
        | some parsed => some { base with toolCalls := some parsed }
        | none => none
  | none => some base

/-- The nested `function` object of a Groq response tool call; the Groq code
treats every field as possibly absent. -/
structure GroqRespFunction where
  name : Option String
  arguments : Option String

/-- A tool call as it appears in a Groq chat-completion response. -/
structure GroqRespToolCall where
  id : Option String
  function : Option GroqRespFunction

/-- Argument parsing of `generateGroqResponse` (`AIProvider.ts` lines
493-511): calls without a `function` are filtered out, ids and names are
defaulted (`tc.id || ...`, `tc.function.name || ''`,
`JSON.parse(tc.function.arguments || '{}')`), and a call whose argument JSON
fails to parse is mapped to `null` and filtered out, keeping the rest. -/
def groqParseToolCalls (parseJson : String → Option Json) (now : Nat)
    (toolCalls : List GroqRespToolCall) : List ToolCall :=
  ((toolCalls.filter (fun tc => tc.function.isSome)).map (fun tc =>
      match tc.function with
      | none => none
      | some f =>
          match parseJson (jsOrOpt f.arguments "\x7b\x7d") with
          | some args =>
              some { id := jsOrOpt tc.id ("call-" ++ toString now),
                     name := jsOrOpt f.name "", arguments := args }
          | none => none)).reduceOption

/-- The error object thrown by the Groq SDK as inspected by
`generateGroqResponse` (`AIProvider.ts` line 517):
`error.status === 400 && error.error?.code === 'tool_use_failed'`. -/
structure GroqApiError where
  status : Nat
  code : Option String
  message : String

/-- The first choice's message of a Groq chat-completion response
(`response.choices[0].message`; the provider always returns at least one
choice, so the embedding carries the first choice directly). -/
structure GroqRespMessage where
  content : Option String
  toolCalls : Option (List GroqRespToolCall)

/-- A Groq chat-completion response: id plus the first choice's message. -/
structure GroqResponse where
  id : Option String
  message : GroqRespMessage

/-- The fixed fallback text of the Groq tools-disabled retry
(`AIProvider.ts` line 536). -/
def groqFallbackText : String :=
  "I apologize, but I encountered an issue with function calling. Please try rephrasing your request or use a different command."

/-- `generateGroqResponse` (`AIProvider.ts` lines 418-544), with the network
modelled by `api call-index includeTools ↦ outcome`: the first request is
`api 0 withTools` where `withTools` reflects
`tools: toolDefinitions.length > 0 ? toolDefinitions : undefined`; on a
`tool_use_failed` 400 error the single retry is `api 1 false` (tools omitted)
and its message is returned text-only (with `groqFallbackText` when its
content is empty); any other error is re-thrown. -/
def generateGroqResponse (api : Nat → Bool → Except GroqApiError GroqResponse)
    (tools : List Tool) (parseJson : String → Option Json) (now : Nat) :
    Except GroqApiError AgentMessage :=
  match api 0 (!tools.isEmpty) with
  | Except.ok resp =>
      let msg := resp.message
      let base : AgentMessage :=
        { id := jsOrOpt resp.id ("groq-" ++ toString now),
          role := Role.assistant, content := jsOrOpt msg.content "",
          timestamp := now }
      (match msg.toolCalls with
       | some tcs =>
           if tcs.isEmpty then Except.ok base
           else Except.ok
             { base with toolCalls := some (groqParseToolCalls parseJson now tcs) }
       | none => Except.ok base)
  | Except.error e =>
      if e.status = 400 ∧ e.code = some "tool_use_failed" then
        match api 1 false with
        | Except.ok fallbackResp =>
            Except.ok
              { id := jsOrOpt fallbackResp.id ("groq-" ++ toString now)
                role := Role.assistant
                content := jsOrOpt fallbackResp.message.content groqFallbackText
                timestamp := now }
        | Except.error e2 => Except.error e2
      else Except.error e

/-- `generateOllamaResponse` (`AIProvider.ts` lines 546-574): the `_tools`
parameter is ignored, the request carries only roles and plain content, and
the result is a text-only assistant message whose content is the network
response's `message.content` (`netContent`). -/
def generateOllamaResponse (_messages : List AgentMessage)
    (_tools : List Tool) (netContent : String) (now : Nat) : AgentMessage :=
  { id := "ollama-" ++ toString now
    role := Role.assistant
    content := netContent
    timestamp := now }

/-- The agent-loop oracle induced by an ollama-configured provider: round `k`
returns `generateOllamaResponse` applied to the network content of the `k`-th
ollama call. -/
def ollamaOracle (net : Nat → String) (now : Nat) : Oracle :=
  fun k msgs tools => Except.ok (generateOllamaResponse msgs tools (net k) now)

/-- Prefix test on character lists (the semantics of JavaScript
`String.prototype.startsWith`). -/
def charsPrefix : List Char → List Char → Bool
  | [], _ => true
  | _ :: _, [] => false
  | a :: as, b :: bs => a = b && charsPrefix as bs

/-- JavaScript `s.startsWith(p)`. -/
def strStartsWith (s p : String) : Bool :=
  charsPrefix p.data s.data

/-- Split of a path into `/`-separated segments. -/
def splitSegsAux (cur : List Char) : List Char → List String
  | [] => [String.mk cur.reverse]
  | c :: rest =>
      if c = '/' then String.mk cur.reverse :: splitSegsAux [] rest
      else splitSegsAux (c :: cur) rest

/-- Segments of a path string. -/
def splitSlash (s : String) : List String :=
  splitSegsAux [] s.data

/-- Join of path segments with `/`. -/
def joinSegs : List String → String
  | [] => ""
  | [s] => s
  | s :: rest => s ++ "/" ++ joinSegs rest

/-- POSIX `path.isAbsolute`. -/
def pathIsAbsolute (p : String) : Bool :=
  strStartsWith p "/"

/-- `path.join(workspaceRoot, filePath)` up to the normalization that
`path.resolve` re-applies immediately afterwards in the source. -/
def pathJoin (a b : String) : String :=
  a ++ "/" ++ b

/-- Segment normalization of POSIX `path.resolve` on an absolute path:
empty and `.` segments are dropped, `..` pops (and is ignored at the root). -/
def normalizeSegs (acc : List String) : List String → List String
  | [] => acc.reverse
  | seg :: rest =>
      if seg = "" ∨ seg = "." then normalizeSegs acc rest
      else if seg = ".." then normalizeSegs (acc.drop 1) rest
      else normalizeSegs (seg :: acc) rest

/-- POSIX `path.resolve` on an absolute path (the tool always resolves an
absolute path: either the absolute `filePath` or `workspaceRoot` joined with
a relative one, with `workspaceRoot` itself absolute). -/
def pathResolve (p : String) : String :=
  "/" ++ joinSegs (normalizeSegs [] (splitSlash p))

/-- Outcome of the containment check of a filesystem tool: either an
access-denied error string is returned, or the tool proceeds to touch the
filesystem at the resolved path. -/
inductive FsOutcome where
  | denied (message : String) : FsOutcome
  | access (resolvedPath : String) : FsOutcome

/-- The path resolution and security check of `FileSystemTool` `read_file`
(`FileSystemTool.ts` lines 22-31); `write_file` (lines 76-85) and
`list_files` run the same logic.  The check is
`resolvedPath.startsWith(resolvedWorkspace)` — a plain string-prefix test. -/
def readFileAccessCheck (workspaceRoot filePath : String) : FsOutcome :=
  let fullPath :=
    if pathIsAbsolute filePath then filePath else pathJoin workspaceRoot filePath
  let resolvedPath := pathResolve fullPath
  let resolvedWorkspace := pathResolve workspaceRoot
  if strStartsWith resolvedPath resolvedWorkspace then
    FsOutcome.access resolvedPath
  else
    FsOutcome.denied
      ("Error: Access denied. File must be within workspace: " ++ workspaceRoot)

/-- Stated per the specification's words, for comparison with the code's
check: a path is a descendant of the workspace root when it is the root
itself or lies strictly below it (extends it past a path separator). -/
def isDescendantOf (root p : String) : Bool :=
  p = root || strStartsWith p (root ++ "/")

/-- Ids of the tool-invocation requests carried by a message (empty when the
message carries none). -/
def toolCallIds (m : AgentMessage) : List String :=
  ((m.toolCalls.getD []).map (fun tc => tc.id))

/-- Correlation-scan state transition: an assistant message exposes its
request ids to the tool messages that follow it; a tool message keeps the
state; any other role ends the current assistant turn. -/
def corrStep (s : Option (List String)) (m : AgentMessage) :
    Option (List String) :=
  match m.role with
  | Role.assistant => some (toolCallIds m)
  | Role.tool => s
  | _ => none

/-- A message is acceptable in correlation-scan state `s` when it is not a
tool message, or it is a tool message whose id is among the request ids of
the immediately preceding assistant message. -/
def corrOk (s : Option (List String)) (m : AgentMessage) : Bool :=
  match m.role with
  | Role.tool =>
      match s with
      | some ids => ids.contains m.id
      | none => false
  | _ => true

/-- Every tool-role message in the list is correlated to a request id of the
immediately preceding assistant message (scanning from state `s`); decides
the no-orphaned-tool-messages invariant. -/
def correlatedFrom (s : Option (List String)) :
    List AgentMessage → Bool
  | [] => true
  | m :: rest => corrOk s m && correlatedFrom (corrStep s m) rest

/-- Correlation-scan state after a list of messages. -/
def corrStateAfter (s : Option (List String)) :
    List AgentMessage → Option (List String)
  | [] => s
  | m :: rest => corrStateAfter (corrStep s m) rest

/-- A concrete echo tool used in witness scenarios. -/
def sampleEchoTool : Tool :=
  { name := "echo_tool", description := "echoes its arguments",
    parameters := [], execute := fun args _ => Except.ok args }

/-- A concrete always-throwing tool used in witness scenarios: its `execute`
rejects with message `boom`. -/
def sampleThrowingTool : Tool :=
  { name := "throwing_tool", description := "always throws",
    parameters := [], execute := fun _ _ => Except.error "boom" }

/-- A second descriptor registered under the name `echo_tool`, used to
exercise registry overwrite. -/
def sampleEchoToolV2 : Tool :=
  { name := "echo_tool", description := "echoes its arguments, v2",
    parameters := [], execute := fun _ _ => Except.ok (Json.str "v2") }

/-- A concrete agent configuration for witness scenarios. -/
def sampleConfig : AgentConfig :=
  { provider := Provider.groq, model := "m" }

/-- A concrete agent with the echo and throwing tools registered. -/
def sampleAgent : Agent :=
  registerTools { config := sampleConfig } [sampleEchoTool, sampleThrowingTool]

/-- A concrete execution context for witness scenarios. -/
def sampleCtx : ToolContext :=
  { sessionId := "s1" }

/-- A concrete request for the echo tool. -/
def sampleCallEcho : ToolCall :=
  { id := "c1", name := "echo_tool", arguments := Json.obj [] }

/-- A concrete request naming a tool absent from the registry. -/
def sampleCallMissing : ToolCall :=
  { id := "c2", name := "missing_tool", arguments := Json.obj [] }

/-- A concrete request for the throwing tool. -/
def sampleCallThrow : ToolCall :=
  { id := "c3", name := "throwing_tool", arguments := Json.obj [] }

/-- An oracle whose every round requests one tool call. -/
def sampleToolLoopOracle : Oracle := fun _ _ _ =>
  Except.ok
    { id := "a", role := Role.assistant, content := "", timestamp := 0,
      toolCalls := some [sampleCallEcho] }

/-- An oracle that requests two tool calls on round 0 and answers plainly on
every later round. -/
def sampleTwoRoundOracle : Oracle := fun k _ _ =>
  if k = 0 then
    Except.ok
      { id := "a0", role := Role.assistant, content := "", timestamp := 0,
        toolCalls := some [sampleCallEcho, sampleCallThrow] }
  else
    Except.ok
      { id := "a1", role := Role.assistant, content := "done", timestamp := 0 }

/-- A model of `JSON.parse` at the inputs used by witness scenarios: the
empty-object text parses and `not json` throws, matching the real parser at
exactly those inputs. -/
def jsonParseStub (s : String) : Option Json :=
  if s = "\x7b\x7d" then some (Json.obj []) else none

/-- A concrete Groq API behaviour: the first call is rejected with a
`tool_use_failed` 400 error, the retry succeeds with plain content. -/
def sampleGroqApi : Nat → Bool → Except GroqApiError GroqResponse :=
  fun k _ =>
    if k = 0 then
      Except.error
        { status := 400, code := some "tool_use_failed",
          message := "failed to generate a function call" }
    else
      Except.ok
        { id := some "g1",
          message := { content := some "hello", toolCalls := none } }

/-- A concrete Groq API behaviour failing with an authentication error. -/
def sampleGroqApiAuthFail : Nat → Bool → Except GroqApiError GroqResponse :=
  fun _ _ =>
    Except.error { status := 401, code := none, message := "invalid api key" }

/-- A concrete assistant message carrying one tool-invocation request. -/
def sampleAssistantWithCall : AgentMessage :=
  { id := "a9", role := Role.assistant, content := "calling", timestamp := 2,
    toolCalls := some [sampleCallEcho] }

/-- A concrete tool-role message correlated to `sampleCallEcho`. -/
def sampleToolMsg : AgentMessage :=
  { id := "c1", role := Role.tool, content := "ok", timestamp := 2 }

/-- An OpenAI response tool call with well-formed argument JSON. -/
def sampleGoodRespCall : OpenAIRespToolCall :=
  { id := "id1", name := "echo_tool", arguments := "\x7b\x7d" }

/-- An OpenAI response tool call whose argument JSON fails to parse. -/
def sampleBadRespCall : OpenAIRespToolCall :=
  { id := "id2", name := "echo_tool", arguments := "not json" }

/-- A Groq response tool call with well-formed argument JSON. -/
def sampleGroqGoodCall : GroqRespToolCall :=
  { id := some "id1",
    function := some { name := some "echo_tool", arguments := some "\x7b\x7d" } }

/-- A Groq response tool call whose argument JSON fails to parse. -/
def sampleGroqBadCall : GroqRespToolCall :=
  { id := some "id2",
    function := some { name := some "echo_tool", arguments := some "not json" } }

theorem mapGet_mapSet_self {α : Type} (m : List (String × α)) (k : String)
    (v : α) : mapGet (mapSet m k v) k = some v := by
  induction m with
  | nil => simp [mapSet, mapGet, List.find?]
  | cons p rest ih =>
    by_cases h : p.1 = k
    · simp [mapSet, mapGet, List.find?, h]
    · simpa [mapSet, mapGet, List.find?, h] using ih

theorem mapGet_mapDelete_self {α : Type} (m : List (String × α)) (k : String) :
    mapGet (mapDelete m k) k = none := by
  induction m with
  | nil => simp [mapDelete, mapGet, List.find?]
  | cons p rest ih =>
    by_cases h : p.1 = k
    · simpa [mapDelete, mapGet, h] using ih
    · simpa [mapDelete, mapGet, List.find?, h] using ih

theorem countKey_mapSet_self {α : Type} (m : List (String × α)) (k : String)
    (v : α) :
    countKey (mapSet m k v) k = if countKey m k = 0 then 1 else countKey m k := by
  induction m with
  | nil => simp [mapSet, countKey]
  | cons p rest ih =>
    by_cases h : p.1 = k
    · simp [mapSet, countKey, h, List.filter]
    · simp only [mapSet, h, if_neg, countKey, List.filter] at *
      simp [h, ih, countKey]

theorem executeTool_id (tools : List (String × Tool)) (tc : ToolCall)
    (ctx : ToolContext) : (executeTool tools tc ctx).id = tc.id := by
  unfold executeTool
  cases mapGet tools tc.name with
  | none => rfl
  | some tool => cases he : tool.execute tc.arguments ctx <;> simp [he]

theorem toolResultMessage_role (tr : ToolResult) (now : Nat) :
    (toolResultMessage tr now).role = Role.tool := rfl

theorem toolResultMessage_id (tr : ToolResult) (now : Nat) :
    (toolResultMessage tr now).id = tr.id := rfl

theorem correlatedFrom_append (s : Option (List String))
    (xs ys : List AgentMessage) :
    correlatedFrom s (xs ++ ys) =
      (correlatedFrom s xs && correlatedFrom (corrStateAfter s xs) ys) := by
  induction xs generalizing s with
  | nil => simp [correlatedFrom, corrStateAfter]
  | cons m rest ih =>
    simp [correlatedFrom, corrStateAfter, ih, Bool.and_assoc]

theorem correlatedFrom_toolMsgs (tools : List (String × Tool))
    (ctx : ToolContext) (now : Nat) (ids : List String) (tcs : List ToolCall)
    (h : ∀ tc ∈ tcs, ids.contains tc.id = true) :
    correlatedFrom (some ids)
        ((tcs.map (fun tc => executeTool tools tc ctx)).map
          (fun tr => toolResultMessage tr now)) = true
    ∧ corrStateAfter (some ids)
        ((tcs.map (fun tc => executeTool tools tc ctx)).map
          (fun tr => toolResultMessage tr now)) = some ids := by
  induction tcs with
  | nil => simp [correlatedFrom, corrStateAfter]
  | cons tc rest ih =>
    have hhd := h tc (List.mem_cons_self tc rest)
    have htl : ∀ tc2 ∈ rest, ids.contains tc2.id = true :=
      fun tc2 hm => h tc2 (List.mem_cons_of_mem tc hm)
    obtain ⟨ih1, ih2⟩ := ih htl
    have hmem : tc.id ∈ ids := by simpa using hhd
    simp only [List.map_map] at ih1 ih2
    constructor
    · simp [correlatedFrom, corrOk, corrStep, toolResultMessage_role,
        toolResultMessage_id, executeTool_id, hmem, ih1, List.map_map]
    · simp [corrStateAfter, corrStep, toolResultMessage_role, ih2, List.map_map]

theorem runLoop_step_error (tools : List (String × Tool)) (ctx : ToolContext)
    (oracle : Oracle) (now : Nat) (fid : String) (round fuel : Nat)
    (history : List AgentMessage) (e : String)
    (hr : oracle round history (tools.map Prod.snd) = Except.error e) :
    runLoop tools ctx oracle now fid round (fuel + 1) history =
      (history, Except.error e) := by
  unfold runLoop
  rw [hr]

theorem runLoop_step_noTools (tools : List (String × Tool)) (ctx : ToolContext)
    (oracle : Oracle) (now : Nat) (fid : String) (round fuel : Nat)
    (history : List AgentMessage) (response : AgentMessage)
    (hr : oracle round history (tools.map Prod.snd) = Except.ok response)
    (htc : response.toolCalls = none ∨ response.toolCalls = some []) :
    runLoop tools ctx oracle now fid round (fuel + 1) history =
      (history ++ [response], Except.ok response) := by
  unfold runLoop
  rw [hr]
  rcases htc with h | h <;> simp [h]

theorem runLoop_step_tools (tools : List (String × Tool)) (ctx : ToolContext)
    (oracle : Oracle) (now : Nat) (fid : String) (round fuel : Nat)
    (history : List AgentMessage) (response : AgentMessage)
    (tcs : List ToolCall)
    (hr : oracle round history (tools.map Prod.snd) = Except.ok response)
    (htc : response.toolCalls = some tcs) (hne : tcs ≠ []) :
    runLoop tools ctx oracle now fid round (fuel + 1) history =
      runLoop tools ctx oracle now fid (round + 1) fuel
        ((history ++ [response]) ++
          (tcs.map (fun tc => executeTool tools tc ctx)).map
            (fun tr => toolResultMessage tr now)) := by
  have hEmpty : tcs.isEmpty = false := by simpa [List.isEmpty_iff] using hne
  simp only [runLoop, hr, htc, hEmpty]
  simp

theorem runLoop_messages_mono (tools : List (String × Tool))
    (ctx : ToolContext) (oracle : Oracle) (now : Nat) (fid : String) :
    ∀ fuel round history, ∃ suffix,
      (runLoop tools ctx oracle now fid round fuel history).1 =
        history ++ suffix := by
  intro fuel
  induction fuel with
  | zero => intro round history; exact ⟨[], by simp [runLoop]⟩
  | succ n ih =>
    intro round history
    cases hr : oracle round history (tools.map Prod.snd) with
    | error e => exact ⟨[], by simp [runLoop_step_error _ _ _ _ _ _ _ _ _ hr]⟩
    | ok response =>
      cases htc : response.toolCalls with
      | none =>
        exact ⟨[response],
          by simp [runLoop_step_noTools _ _ _ _ _ _ _ _ _ hr (Or.inl htc)]⟩
      | some tcs =>
        cases tcs with
        | nil =>
          exact ⟨[response],
            by simp [runLoop_step_noTools _ _ _ _ _ _ _ _ _ hr (Or.inr htc)]⟩
        | cons tc rest =>
          obtain ⟨suffix, hs⟩ :=
            ih (round + 1)
              ((history ++ [response]) ++
                (((tc :: rest).map (fun c => executeTool tools c ctx)).map
                  (fun tr => toolResultMessage tr now)))
          refine ⟨[response] ++
            (((tc :: rest).map (fun c => executeTool tools c ctx)).map
              (fun tr => toolResultMessage tr now)) ++ suffix, ?_⟩
          rw [runLoop_step_tools _ _ _ _ _ _ _ _ _ _ hr htc (by simp), hs]
          simp

theorem runLoop_congr (tools : List (String × Tool)) (ctx : ToolContext)
    (o1 o2 : Oracle) (now : Nat) (fid : String) :
    ∀ fuel round history,
      (∀ k msgs tl, round ≤ k → k < round + fuel → o1 k msgs tl = o2 k msgs tl) →
      runLoop tools ctx o1 now fid round fuel history =
        runLoop tools ctx o2 now fid round fuel history := by
  intro fuel
  induction fuel with
  | zero => intro round history _; rfl
  | succ n ih =>
    intro round history h
    have h0 : o1 round history (tools.map Prod.snd) =
        o2 round history (tools.map Prod.snd) :=
      h round history (tools.map Prod.snd) (Nat.le_refl _)
        (Nat.lt_add_of_pos_right (Nat.succ_pos n))
    have hrest : ∀ k msgs tl, round + 1 ≤ k → k < (round + 1) + n →
        o1 k msgs tl = o2 k msgs tl := by
      intro k msgs tl h1 h2
      exact h k msgs tl (Nat.le_of_succ_le h1) (by omega)
    cases hr : o2 round history (tools.map Prod.snd) with
    | error e =>
      rw [runLoop_step_error _ _ _ _ _ _ _ _ _ (h0.trans hr),
        runLoop_step_error _ _ _ _ _ _ _ _ _ hr]
    | ok response =>
      cases htc : response.toolCalls with
      | none =>
        rw [runLoop_step_noTools _ _ _ _ _ _ _ _ _ (h0.trans hr) (Or.inl htc),
          runLoop_step_noTools _ _ _ _ _ _ _ _ _ hr (Or.inl htc)]
      | some tcs =>
        cases tcs with
        | nil =>
          rw [runLoop_step_noTools _ _ _ _ _ _ _ _ _ (h0.trans hr) (Or.inr htc),
            runLoop_step_noTools _ _ _ _ _ _ _ _ _ hr (Or.inr htc)]
        | cons tc rest =>
          rw [runLoop_step_tools _ _ _ _ _ _ _ _ _ _ (h0.trans hr) htc (by simp),
            runLoop_step_tools _ _ _ _ _ _ _ _ _ _ hr htc (by simp)]
          exact ih (round + 1) _ hrest

theorem runLoop_all_tools (tools : List (String × Tool)) (ctx : ToolContext)
    (oracle : Oracle) (now : Nat) (fid : String) :
    ∀ fuel round history,
      (∀ k msgs tl, round ≤ k → k < round + fuel →
        ∃ m tcs, oracle k msgs tl = Except.ok m ∧
          m.toolCalls = some tcs ∧ tcs ≠ []) →
      (runLoop tools ctx oracle now fid round fuel history).2 =
        Except.ok (maxIterationsFallback fid now) := by
  intro fuel
  induction fuel with
  | zero => intro round history _; rfl
  | succ n ih =>
    intro round history h
    obtain ⟨m, tcs, hr, htc, hne⟩ :=
      h round history (tools.map Prod.snd) (Nat.le_refl _)
        (Nat.lt_add_of_pos_right (Nat.succ_pos n))
    rw [runLoop_step_tools _ _ _ _ _ _ _ _ _ _ hr htc hne]
    exact ih (round + 1) _ (fun k msgs tl h1 h2 =>
      h k msgs tl (Nat.le_of_succ_le h1) (by omega))

theorem runLoop_correlated (tools : List (String × Tool)) (ctx : ToolContext)
    (oracle : Oracle) (now : Nat) (fid : String)
    (horacle : ∀ k msgs tl m, oracle k msgs tl = Except.ok m →
      m.role = Role.assistant) :
    ∀ fuel round history, correlatedFrom none history = true →
      correlatedFrom none
        (runLoop tools ctx oracle now fid round fuel history).1 = true := by
  intro fuel
  induction fuel with
  | zero => intro round history h; simpa [runLoop] using h
  | succ n ih =>
    intro round history h
    cases hr : oracle round history (tools.map Prod.snd) with
    | error e =>
      rw [runLoop_step_error _ _ _ _ _ _ _ _ _ hr]
      exact h
    | ok response =>
      have hrole := horacle _ _ _ _ hr
      have hresp : correlatedFrom none (history ++ [response]) = true := by
        rw [correlatedFrom_append]
        simp [h, correlatedFrom, corrOk, hrole]
      cases htc : response.toolCalls with
      | none =>
        rw [runLoop_step_noTools _ _ _ _ _ _ _ _ _ hr (Or.inl htc)]
        exact hresp
      | some tcs =>
        cases tcs with
        | nil =>
          rw [runLoop_step_noTools _ _ _ _ _ _ _ _ _ hr (Or.inr htc)]
          exact hresp
        | cons tc rest =>
          rw [runLoop_step_tools _ _ _ _ _ _ _ _ _ _ hr htc (by simp)]
          apply ih (round + 1)
          rw [correlatedFrom_append]
          have hstate : corrStateAfter none (history ++ [response]) =
              some (toolCallIds response) := by
            have : ∀ s xs m, corrStateAfter s (xs ++ [m]) = corrStep (corrStateAfter s xs) m := by
              intro s xs m
              induction xs generalizing s with
              | nil => rfl
              | cons x rest2 ih2 => simpa [corrStateAfter] using ih2 _
            rw [this]
            simp [corrStep, hrole]
          obtain ⟨hcor, _⟩ := correlatedFrom_toolMsgs tools ctx now
            (toolCallIds response) (tc :: rest)
            (by intro c hc
                have hmem : c.id ∈ toolCallIds response := by
                  simp only [toolCallIds, htc, Option.getD_some]
                  exact List.mem_map_of_mem _ hc
                simpa using hmem)
          rw [hstate]
          simp only [hresp, Bool.true_and]
          simpa [List.map_map] using hcor

theorem getOrCreate_messages (agent : Agent) (sid : String)
    (uid : Option String) :
    (getOrCreateConversation agent sid uid).2.messages =
      getConversationMessages agent sid := by
  unfold getOrCreateConversation getConversationMessages
  cases mapGet agent.conversations sid <;> rfl

theorem getOrCreate_tools (agent : Agent) (sid : String) (uid : Option String) :
    (getOrCreateConversation agent sid uid).1.tools = agent.tools := by
  unfold getOrCreateConversation
  cases mapGet agent.conversations sid <;> rfl

theorem processMessage_result_eq (agent : Agent) (userMessage : String)
    (ctx : ToolContext) (sessionId : Option String)
    (generatedSid userMsgId fallbackId : String) (oracle : Oracle) (now : Nat) :
    (processMessage agent userMessage ctx sessionId generatedSid userMsgId
        fallbackId oracle now).2 =
      (runLoop agent.tools ctx oracle now fallbackId 0 maxIterations
        (getConversationMessages agent (resolveSid sessionId generatedSid) ++
          [mkUserMessage userMsgId userMessage now])).2 := by
  simp only [processMessage, getOrCreate_tools, getOrCreate_messages]

theorem processMessage_state_eq (agent : Agent) (userMessage : String)
    (ctx : ToolContext) (sessionId : Option String)
    (generatedSid userMsgId fallbackId : String) (oracle : Oracle) (now : Nat) :
    getConversationMessages
        (processMessage agent userMessage ctx sessionId generatedSid userMsgId
          fallbackId oracle now).1 (resolveSid sessionId generatedSid) =
      (runLoop agent.tools ctx oracle now fallbackId 0 maxIterations
        (getConversationMessages agent (resolveSid sessionId generatedSid) ++
          [mkUserMessage userMsgId userMessage now])).1 := by
  simp only [processMessage, getConversationMessages, getOrCreate_tools,
    getOrCreate_messages, mapGet_mapSet_self]

/-- C1: for every sequence of Model Adapter responses, `processMessage`
consults the adapter on at most 20 model-call rounds (its outcome is
unchanged when the oracle is replaced by any oracle agreeing on the first 20
rounds), and when every one of those 20 rounds returns an assistant message
carrying at least one tool-invocation request, it resolves — without
throwing — with the synthesized assistant message explaining that the
processing-step limit was reached. -/
theorem C1_iteration_ceiling (agent : Agent) (userMessage : String)
    (ctx : ToolContext) (sessionId : Option String)
    (generatedSid userMsgId fallbackId : String) (oracle oracle2 : Oracle)
    (now : Nat)
    (hAllTools : ∀ k msgs tl, k < 20 →
      ∃ m tcs, oracle k msgs tl = Except.ok m ∧
        m.toolCalls = some tcs ∧ tcs ≠ [])
    (hAgree : ∀ k msgs tl, k < 20 → oracle k msgs tl = oracle2 k msgs tl) :
    (processMessage agent userMessage ctx sessionId generatedSid userMsgId
        fallbackId oracle now).2 =
      Except.ok (maxIterationsFallback fallbackId now)
    ∧ (maxIterationsFallback fallbackId now).role = Role.assistant
    ∧ (maxIterationsFallback fallbackId now).content =
        "I apologize, but I reached the maximum number of processing steps. Please try rephrasing your request."
    ∧ maxIterations = 20
    ∧ processMessage agent userMessage ctx sessionId generatedSid userMsgId
        fallbackId oracle2 now =
      processMessage agent userMessage ctx sessionId generatedSid userMsgId
        fallbackId oracle now := by
  refine ⟨?_, rfl, rfl, rfl, ?_⟩
  · rw [processMessage_result_eq]
    exact runLoop_all_tools _ _ _ _ _ maxIterations 0 _
      (fun k msgs tl h1 h2 => hAllTools k msgs tl (by simpa [maxIterations] using h2))
  · simp only [processMessage]
    rw [runLoop_congr _ _ oracle2 oracle now fallbackId maxIterations 0 _
      (fun k msgs tl h1 h2 =>
        (hAgree k msgs tl (by simpa [maxIterations] using h2)).symm)]

/-- Witness for C1: the concrete agent with the always-requesting oracle ends
with the ceiling fallback message. -/
theorem C1_iteration_ceiling_witness :
    (processMessage sampleAgent "hi" sampleCtx (some "s1") "g" "u" "f"
        sampleToolLoopOracle 7).2 =
      Except.ok (maxIterationsFallback "f" 7) :=
  (C1_iteration_ceiling sampleAgent "hi" sampleCtx (some "s1") "g" "u" "f"
    sampleToolLoopOracle sampleToolLoopOracle 7
    (fun _ _ _ _ => ⟨_, [sampleCallEcho], rfl, rfl, by simp⟩)
    (fun _ _ _ _ => rfl)).1

/-- C2: in one assistant turn's batch of requests each request yields exactly
one `ToolResult` in place — a missing registry entry yields the
tool-not-found error result, a throwing `execute` yields a result carrying
the thrown message, the surrounding requests are executed with their results
unaffected — and the loop then proceeds to the next model round instead of
throwing. -/
theorem C2_tool_fault_isolation (tools : List (String × Tool))
    (ctx : ToolContext) (l1 l2 l3 : List ToolCall)
    (tcMissing tcThrow : ToolCall) (tool : Tool) (e : String)
    (hMissing : mapGet tools tcMissing.name = none)
    (hFound : mapGet tools tcThrow.name = some tool)
    (hThrow : tool.execute tcThrow.arguments ctx = Except.error e) :
    (l1 ++ tcMissing :: l2 ++ tcThrow :: l3).map
        (fun tc => executeTool tools tc ctx) =
      l1.map (fun tc => executeTool tools tc ctx)
        ++ ({ id := tcMissing.id, name := tcMissing.name, result := Json.null,
              error := some ("Tool \x27" ++ tcMissing.name ++ "\x27 not found") } : ToolResult)
          :: l2.map (fun tc => executeTool tools tc ctx)
        ++ ({ id := tcThrow.id, name := tcThrow.name, result := Json.null,
              error := some e } : ToolResult)
          :: l3.map (fun tc => executeTool tools tc ctx)
    ∧ (∀ oracle round fuel history response now fid,
        oracle round history (tools.map Prod.snd) = Except.ok response →
        response.toolCalls = some (l1 ++ tcMissing :: l2 ++ tcThrow :: l3) →
        runLoop tools ctx oracle now fid round (fuel + 1) history =
          runLoop tools ctx oracle now fid (round + 1) fuel
            ((history ++ [response]) ++
              (((l1 ++ tcMissing :: l2 ++ tcThrow :: l3).map
                  (fun tc => executeTool tools tc ctx)).map
                (fun tr => toolResultMessage tr now)))) := by
  constructor
  · simp [executeTool, hMissing, hFound, hThrow]
  · intro oracle round fuel history response now fid hr htc
    exact runLoop_step_tools _ _ _ _ _ _ _ _ _ _ hr htc (by simp)

/-- Witness for C2 at a concrete registry: a batch of echo, missing and
throwing requests yields three results in order — the echo success, the
not-found error, the thrown-message error. -/
theorem C2_tool_fault_isolation_witness :
    ([sampleCallEcho] ++ sampleCallMissing :: [] ++ sampleCallThrow :: []).map
        (fun tc => executeTool sampleAgent.tools tc sampleCtx) =
      [sampleCallEcho].map (fun tc => executeTool sampleAgent.tools tc sampleCtx)
        ++ ({ id := sampleCallMissing.id, name := sampleCallMissing.name,
              result := Json.null,
              error := some ("Tool \x27" ++ sampleCallMissing.name ++ "\x27 not found") } : ToolResult)
          :: ([] : List ToolCall).map (fun tc => executeTool sampleAgent.tools tc sampleCtx)
        ++ ({ id := sampleCallThrow.id, name := sampleCallThrow.name,
              result := Json.null, error := some "boom" } : ToolResult)
          :: ([] : List ToolCall).map (fun tc => executeTool sampleAgent.tools tc sampleCtx) :=
  (C2_tool_fault_isolation sampleAgent.tools sampleCtx [sampleCallEcho] [] []
    sampleCallMissing sampleCallThrow sampleThrowingTool "boom"
    rfl rfl rfl).1

/-- C3: one loop round with requests `[r1, ..., rn]` appends exactly the `n`
tool-role messages, one per result, in request order, each carrying its
request's id; and across a whole `processMessage` call the stored history
satisfies the no-orphaned-tool-messages invariant: every tool-role message's
id is among the request ids of the immediately preceding assistant message. -/
theorem C3_order_and_correlation (agent : Agent) (userMessage : String)
    (ctx : ToolContext) (sessionId : Option String)
    (generatedSid userMsgId fallbackId : String) (oracle : Oracle) (now : Nat)
    (horacle : ∀ k msgs tl m, oracle k msgs tl = Except.ok m →
      m.role = Role.assistant)
    (hprior : correlatedFrom none
      (getConversationMessages agent (resolveSid sessionId generatedSid)) = true) :
    correlatedFrom none
        (getConversationMessages
          (processMessage agent userMessage ctx sessionId generatedSid
            userMsgId fallbackId oracle now).1
          (resolveSid sessionId generatedSid)) = true
    ∧ (∀ tools2 round fuel history response tcs,
        oracle round history (tools2.map Prod.snd) = Except.ok response →
        response.toolCalls = some tcs → tcs ≠ [] →
        runLoop tools2 ctx oracle now fallbackId round (fuel + 1) history =
          runLoop tools2 ctx oracle now fallbackId (round + 1) fuel
            ((history ++ [response]) ++
              (tcs.map (fun tc => executeTool tools2 tc ctx)).map
                (fun tr => toolResultMessage tr now)))
    ∧ (∀ (tools2 : List (String × Tool)) (tcs : List ToolCall),
        ((tcs.map (fun tc => executeTool tools2 tc ctx)).map
            (fun tr => toolResultMessage tr now)).map (fun m => m.id) =
          tcs.map (fun tc => tc.id)) := by
  refine ⟨?_, ?_, ?_⟩
  · rw [processMessage_state_eq]
    apply runLoop_correlated _ _ _ _ _ horacle
    rw [correlatedFrom_append]
    simp [hprior, correlatedFrom, corrOk, mkUserMessage]
  · intro tools2 round fuel history response tcs hr htc hne
    exact runLoop_step_tools _ _ _ _ _ _ _ _ _ _ hr htc hne
  · intro tools2 tcs
    simp [List.map_map, Function.comp, toolResultMessage_id, executeTool_id]

/-- Witness for C3: the concrete two-round scenario produces a stored history
with no orphaned tool-role message. -/
theorem C3_order_and_correlation_witness :
    correlatedFrom none
        (getConversationMessages
          (processMessage sampleAgent "hi" sampleCtx (some "s1") "g" "u" "f"
            sampleTwoRoundOracle 3).1
          (resolveSid (some "s1") "g")) = true :=
  (C3_order_and_correlation sampleAgent "hi" sampleCtx (some "s1") "g" "u" "f"
    sampleTwoRoundOracle 3
    (by
      intro k msgs tl m h
      simp only [sampleTwoRoundOracle] at h
      split at h <;> (injection h with h2; subst h2; rfl))
    (by rfl)).1

/-- C8: registering two descriptors with the same name leaves exactly one
binding under that name, and lookup retrieves the most recently registered
one; registration never errors (it is a total function), and `registerTools`
is sequential `registerTool` in list order. -/
theorem C8_registry_overwrite (agent : Agent) (t1 t2 t : Tool)
    (ts : List Tool) (hname : t1.name = t2.name)
    (hdup : countKey agent.tools t1.name ≤ 1) :
    mapGet (registerTool (registerTool agent t1) t2).tools t1.name = some t2
    ∧ countKey (registerTool (registerTool agent t1) t2).tools t1.name = 1
    ∧ registerTools agent [] = agent
    ∧ registerTools agent (t :: ts) = registerTools (registerTool agent t) ts := by
  refine ⟨?_, ?_, rfl, rfl⟩
  · unfold registerTool
    rw [hname]
    exact mapGet_mapSet_self _ _ _
  · unfold registerTool
    rw [hname]
    rw [hname] at hdup
    rw [countKey_mapSet_self, countKey_mapSet_self]
    split_ifs <;> omega

/-- Witness for C8: registering the v2 echo descriptor over the original one
leaves a single binding for `echo_tool`, retrieving v2. -/
theorem C8_registry_overwrite_witness :
    mapGet (registerTool (registerTool { config := sampleConfig } sampleEchoTool)
        sampleEchoToolV2).tools sampleEchoTool.name = some sampleEchoToolV2
    ∧ countKey (registerTool (registerTool { config := sampleConfig } sampleEchoTool)
        sampleEchoToolV2).tools sampleEchoTool.name = 1 :=
  ⟨(C8_registry_overwrite { config := sampleConfig } sampleEchoTool
      sampleEchoToolV2 sampleEchoTool [] rfl (by simp [countKey])).1,
   (C8_registry_overwrite { config := sampleConfig } sampleEchoTool
      sampleEchoToolV2 sampleEchoTool [] rfl (by simp [countKey])).2.1⟩

/-- C9: after `clearConversation s` the store holds no history for `s`, and
the next `processMessage` with session id `s` starts from an empty history —
the new user message sits at index 0 of the freshly created history. -/
theorem C9_clear_semantics (agent : Agent) (sid : String) (hsid : sid ≠ "")
    (userMessage : String) (ctx : ToolContext)
    (generatedSid userMsgId fallbackId : String) (oracle : Oracle)
    (now : Nat) :
    getConversation (clearConversation agent sid) sid = none
    ∧ (getConversationMessages
          (processMessage (clearConversation agent sid) userMessage ctx
            (some sid) generatedSid userMsgId fallbackId oracle now).1
          sid)[0]? =
        some (mkUserMessage userMsgId userMessage now) := by
  have hres : resolveSid (some sid) generatedSid = sid := by
    simp [resolveSid, jsOrOpt, jsOrStr, hsid]
  have hclear : getConversationMessages (clearConversation agent sid) sid = [] := by
    simp [getConversationMessages, clearConversation, mapGet_mapDelete_self]
  constructor
  · simp [getConversation, clearConversation, mapGet_mapDelete_self]
  · have hstate := processMessage_state_eq (clearConversation agent sid)
      userMessage ctx (some sid) generatedSid userMsgId fallbackId oracle now
    rw [hres, hclear] at hstate
    rw [hstate]
    obtain ⟨suffix, hs⟩ := runLoop_messages_mono
      (clearConversation agent sid).tools ctx oracle now fallbackId
      maxIterations 0 ([] ++ [mkUserMessage userMsgId userMessage now])
    rw [hs]
    simp

/-- Witness for C9 on the concrete agent and two-round oracle. -/
theorem C9_clear_semantics_witness :
    getConversation (clearConversation sampleAgent "s1") "s1" = none
    ∧ (getConversationMessages
          (processMessage (clearConversation sampleAgent "s1") "hi" sampleCtx
            (some "s1") "g" "u" "f" sampleTwoRoundOracle 3).1
          "s1")[0]? =
        some (mkUserMessage "u" "hi" 3) :=
  C9_clear_semantics sampleAgent "s1" (by simp) "hi" sampleCtx "g" "u" "f"
    sampleTwoRoundOracle 3

/-- C10: the ollama variant ignores the supplied tool descriptor set and
always returns an assistant message carrying no tool-invocation requests, so
an ollama-configured agent's `processMessage` terminates after exactly one
model round, returning the first model response (the history gains exactly
the user message and that single response). -/
theorem C10_ollama_single_round (agent : Agent) (userMessage : String)
    (ctx : ToolContext) (sessionId : Option String)
    (generatedSid userMsgId fallbackId : String) (net : Nat → String)
    (now : Nat) (msgs msgs2 : List AgentMessage) (tools1 tools2 : List Tool) :
    generateOllamaResponse msgs tools1 (net 0) now =
      generateOllamaResponse msgs2 tools2 (net 0) now
    ∧ (generateOllamaResponse msgs tools1 (net 0) now).toolCalls = none
    ∧ (processMessage agent userMessage ctx sessionId generatedSid userMsgId
        fallbackId (ollamaOracle net now) now).2 =
      Except.ok (generateOllamaResponse msgs tools1 (net 0) now)
    ∧ getConversationMessages
        (processMessage agent userMessage ctx sessionId generatedSid userMsgId
          fallbackId (ollamaOracle net now) now).1
        (resolveSid sessionId generatedSid) =
      getConversationMessages agent (resolveSid sessionId generatedSid) ++
        [mkUserMessage userMsgId userMessage now,
         generateOllamaResponse msgs tools1 (net 0) now] := by
  have hstep : ∀ history : List AgentMessage,
      runLoop agent.tools ctx (ollamaOracle net now) now fallbackId 0
          maxIterations history =
        (history ++ [generateOllamaResponse msgs tools1 (net 0) now],
         Except.ok (generateOllamaResponse msgs tools1 (net 0) now)) := by
    intro history
    have h20 : maxIterations = 19 + 1 := rfl
    rw [h20]
    exact runLoop_step_noTools agent.tools ctx (ollamaOracle net now) now
      fallbackId 0 19 history (generateOllamaResponse msgs tools1 (net 0) now)
      rfl (Or.inl rfl)
  refine ⟨rfl, rfl, ?_, ?_⟩
  · rw [processMessage_result_eq, hstep]
  · rw [processMessage_state_eq, hstep]
    simp

/-- C4: for the Groq variant, when the provider rejects the request with the
`tool_use_failed` 400 error, `generateGroqResponse` retries exactly once with
tools omitted and returns the retry's message as a plain text-only assistant
message (with the fixed apologetic default text when the retry's content is
empty), while any other provider error propagates as a thrown error. -/
theorem C4_groq_fallback
    (api api2 : Nat → Bool → Except GroqApiError GroqResponse)
    (tools : List Tool) (parseJson : String → Option Json) (now : Nat)
    (e e2 : GroqApiError) (r : GroqResponse)
    (h1 : api 0 (!tools.isEmpty) = Except.error e)
    (h2 : e.status = 400) (h3 : e.code = some "tool_use_failed")
    (h4 : api 1 false = Except.ok r)
    (hne : ¬(e2.status = 400 ∧ e2.code = some "tool_use_failed"))
    (h5 : api2 0 (!tools.isEmpty) = Except.error e2) :
    generateGroqResponse api tools parseJson now =
      Except.ok
        { id := jsOrOpt r.id ("groq-" ++ toString now), role := Role.assistant,
          content := jsOrOpt r.message.content groqFallbackText,
          timestamp := now }
    ∧ (∀ m, generateGroqResponse api tools parseJson now = Except.ok m →
        m.toolCalls = none)
    ∧ jsOrOpt none groqFallbackText = groqFallbackText
    ∧ jsOrOpt (some "") groqFallbackText = groqFallbackText
    ∧ generateGroqResponse api2 tools parseJson now = Except.error e2 := by
  have hmain : generateGroqResponse api tools parseJson now =
      Except.ok
        { id := jsOrOpt r.id ("groq-" ++ toString now), role := Role.assistant,
          content := jsOrOpt r.message.content groqFallbackText,
          timestamp := now } := by
    unfold generateGroqResponse
    rw [h1, h4]
    simp [h2, h3]
  refine ⟨hmain, ?_, rfl, rfl, ?_⟩
  · intro m hm
    rw [hmain] at hm
    injection hm with hm2
    rw [← hm2]
  · unfold generateGroqResponse
    rw [h5]
    simp [hne]

/-- Witness for C4 at the concrete Groq API behaviours. -/
theorem C4_groq_fallback_witness :
    generateGroqResponse sampleGroqApi [sampleEchoTool] jsonParseStub 5 =
      Except.ok
        { id := jsOrOpt (some "g1") ("groq-" ++ toString 5),
          role := Role.assistant,
          content := jsOrOpt (some "hello") groqFallbackText, timestamp := 5 }
    ∧ generateGroqResponse sampleGroqApiAuthFail [sampleEchoTool] jsonParseStub 5 =
      Except.error { status := 401, code := none, message := "invalid api key" } :=
  ⟨(C4_groq_fallback sampleGroqApi sampleGroqApiAuthFail [sampleEchoTool]
      jsonParseStub 5
      { status := 400, code := some "tool_use_failed",
        message := "failed to generate a function call" }
      { status := 401, code := none, message := "invalid api key" }
      { id := some "g1", message := { content := some "hello", toolCalls := none } }
      rfl rfl rfl rfl (by simp) rfl).1,
   (C4_groq_fallback sampleGroqApi sampleGroqApiAuthFail [sampleEchoTool]
      jsonParseStub 5
      { status := 400, code := some "tool_use_failed",
        message := "failed to generate a function call" }
      { status := 401, code := none, message := "invalid api key" }
      { id := some "g1", message := { content := some "hello", toolCalls := none } }
      rfl rfl rfl rfl (by simp) rfl).2.2.2.2⟩

/-- C5 counterexample: the Anthropic variant does not serialize
tool-invocation requests or tool results natively — an assistant message
carrying a tool call is formatted identically to the same message without
it, and a tool-role message is flattened to a plain user-role text message
with no correlation identifier. -/
theorem C5_anthropic_flattens_counterexample :
    anthropicFormatMessage sampleAssistantWithCall =
      anthropicFormatMessage { sampleAssistantWithCall with toolCalls := none }
    ∧ anthropicFormatMessage sampleToolMsg =
      { role := Role.user, content := "ok" } :=
  ⟨rfl, rfl⟩

/-- C5 amended: for the OpenAI and Groq variants (whose formatting code is
identical), assistant messages carrying tool-invocation requests are
serialized as provider-native function calls with JSON-encoded arguments,
and tool-role messages as provider-native tool messages whose
`tool_call_id` is the message id — which for a loop-produced tool message
equals the originating request's id. -/
theorem C5_serialization_openai_groq (m : AgentMessage) (tcs : List ToolCall)
    (tools : List (String × Tool)) (ctx : ToolContext) (tc : ToolCall)
    (now : Nat) (hrole : m.role = Role.assistant)
    (htc : m.toolCalls = some tcs) :
    openAIFormatMessage m =
      WireMessage.chat Role.assistant m.content
        (some (tcs.map (fun c =>
          { id := c.id, functionName := c.name,
            functionArguments := jsonStringify c.arguments })))
    ∧ groqFormatMessage m = openAIFormatMessage m
    ∧ (∀ mt : AgentMessage, mt.role = Role.tool →
        openAIFormatMessage mt = WireMessage.toolMsg mt.content mt.id
        ∧ groqFormatMessage mt = WireMessage.toolMsg mt.content mt.id)
    ∧ openAIFormatMessage (toolResultMessage (executeTool tools tc ctx) now) =
      WireMessage.toolMsg
        ((toolResultMessage (executeTool tools tc ctx) now).content) tc.id := by
  refine ⟨?_, ?_, ?_, ?_⟩
  · unfold openAIFormatMessage
    rw [hrole, htc]
    rfl
  · unfold openAIFormatMessage groqFormatMessage
    rfl
  · intro mt hmt
    constructor
    · unfold openAIFormatMessage
      rw [hmt]
    · unfold groqFormatMessage
      rw [hmt]
  · unfold openAIFormatMessage
    rw [toolResultMessage_role, toolResultMessage_id, executeTool_id]

/-- Witness for C5 amended, at a concrete assistant message with one call. -/
theorem C5_serialization_openai_groq_witness :
    openAIFormatMessage sampleAssistantWithCall =
      WireMessage.chat Role.assistant "calling"
        (some [{ id := "c1", functionName := "echo_tool",
                 functionArguments := "\x7b\x7d" }]) := by
  have h := (C5_serialization_openai_groq sampleAssistantWithCall
    [sampleCallEcho] [] sampleCtx sampleCallEcho 0 rfl rfl).1
  rw [h]
  rfl

/-- C6 counterexample: in the OpenAI variant a single unparsable argument
JSON does not drop just that call — `JSON.parse` throws and the whole
response is lost (`none`), the well-formed sibling call included. -/
theorem C6_openai_parse_failure_aborts :
    openAIBuildMessage jsonParseStub "resp1" (some "")
        (some [sampleGoodRespCall, sampleBadRespCall]) 5 = none
    ∧ openAIParseToolCalls jsonParseStub [sampleGoodRespCall, sampleBadRespCall] =
      none :=
  ⟨rfl, rfl⟩

/-- C6 amended: in the Groq variant each well-formed call is parsed into a
`ToolInvocationRequest` with JSON-parsed (and defaulted) fields, and a call
whose argument JSON fails to parse is dropped from the returned request list
while the surrounding calls are kept, without aborting. -/
theorem C6_groq_drops_unparsable (parseJson : String → Option Json)
    (now : Nat) (l1 l2 : List GroqRespToolCall) (tc : GroqRespToolCall)
    (f : GroqRespFunction) (hf : tc.function = some f)
    (hbad : parseJson (jsOrOpt f.arguments "\x7b\x7d") = none) :
    groqParseToolCalls parseJson now (l1 ++ tc :: l2) =
      groqParseToolCalls parseJson now l1 ++ groqParseToolCalls parseJson now l2
    ∧ (∀ (tcg : GroqRespToolCall) (fg : GroqRespFunction) (args : Json),
        tcg.function = some fg →
        parseJson (jsOrOpt fg.arguments "\x7b\x7d") = some args →
        groqParseToolCalls parseJson now [tcg] =
          [{ id := jsOrOpt tcg.id ("call-" ++ toString now),
             name := jsOrOpt fg.name "", arguments := args }]) := by
  constructor
  · unfold groqParseToolCalls
    rw [List.filter_append, List.map_append, List.reduceOption_append]
    rw [List.filter_cons]
    rw [hf]
    simp [hf, hbad]
  · intro tcg fg args hg hargs
    unfold groqParseToolCalls
    simp [hg, hargs]

/-- Witness for C6 amended: a well-formed call followed by an unparsable one
yields exactly the parse of the well-formed call. -/
theorem C6_groq_drops_unparsable_witness :
    groqParseToolCalls jsonParseStub 5 ([sampleGroqGoodCall] ++ sampleGroqBadCall :: []) =
      groqParseToolCalls jsonParseStub 5 [sampleGroqGoodCall] ++
        groqParseToolCalls jsonParseStub 5 [] :=
  (C6_groq_drops_unparsable jsonParseStub 5 [sampleGroqGoodCall] []
    sampleGroqBadCall
    { name := some "echo_tool", arguments := some "not json" } rfl rfl).1

/-- C7: the filesystem tools guard with
`resolvedPath.startsWith(resolvedWorkspace)` — a plain string-prefix test —
so the sibling path `/workspaceX/secret.txt` of workspace root `/workspace`
passes the check and the tool proceeds to touch the file, although the path
is not a descendant of the root; a relative path inside the workspace is
accessed and a genuinely foreign absolute path is denied. -/
theorem C7_prefix_check_escape :
    readFileAccessCheck "/workspace" "/workspaceX/secret.txt" =
      FsOutcome.access "/workspaceX/secret.txt"
    ∧ isDescendantOf "/workspace" "/workspaceX/secret.txt" = false
    ∧ readFileAccessCheck "/workspace" "notes.txt" =
      FsOutcome.access "/workspace/notes.txt"
    ∧ readFileAccessCheck "/workspace" "/etc/passwd" =
      FsOutcome.denied
        "Error: Access denied. File must be within workspace: /workspace" := by
  refine ⟨?_, ?_, ?_, ?_⟩ <;> rfl
